import Mathlib

/-!
Shallow embedding of the book-advisor chatbot core
(`src/lib/tools.ts` and `src/app/api/chat/route.ts`).

The external Google Books API, the LLM provider and the JSON parser are
modelled as oracle functions supplied to the embedded operations; the
Prisma reading-list store is modelled as an explicit state value threaded
through the store operations.  JavaScript truthiness of the `||` and `&&`
operators on possibly-absent strings and numbers is made explicit through
the `jsOr*` helpers below.
-/

namespace Chatbot

/-- Models the JavaScript expression `x || d` for a possibly-undefined
string `x`: `undefined` and the empty string are falsy. -/
def jsOrString (v : Option String) (d : String) : String :=
  match v with
  | some s => if s = "" then d else s
  | none => d

/-- Models the JavaScript expression `x || null` for a possibly-undefined
string `x`: `undefined` and the empty string collapse to `null`. -/
def jsOrNullString (v : Option String) : Option String :=
  match v with
  | some s => if s = "" then none else some s
  | none => none

/-- Models the JavaScript expression `x || null` for a possibly-undefined
number `x`: `undefined` and `0` collapse to `null`. -/
def jsOrNullNat (v : Option Nat) : Option Nat :=
  match v with
  | some n => if n = 0 then none else some n
  | none => none

/-- JavaScript truthiness of a possibly-undefined string (`undefined` and
`""` are falsy). -/
def jsTruthyStr (v : Option String) : Bool :=
  match v with
  | some s => s != ""
  | none => false

/-- JavaScript truthiness of a possibly-undefined number (`undefined` and
`0` are falsy). -/
def jsTruthyNat (v : Option Nat) : Bool :=
  match v with
  | some n => n != 0
  | none => false

/-- Whether the second character list occurs at the head of the first. -/
def startsWithChars : List Char → List Char → Bool
  | _, [] => true
  | [], _ :: _ => false
  | c :: cs, p :: ps => (c == p) && startsWithChars cs ps

/-- Whether the second character list occurs anywhere in the first. -/
def charsContain : List Char → List Char → Bool
  | [], pat => pat.isEmpty
  | c :: cs, pat => startsWithChars (c :: cs) pat || charsContain cs pat

/-- Models JavaScript `s.includes(pat)`: substring occurrence. -/
def strIncludes (s pat : String) : Bool :=
  charsContain s.data pat.data

/-! ## 1. Book Lookup Client (`getBookDetails`, `searchBooks`) -/

/-- The `volumeInfo` object of a Google Books get-by-id response.  The
title is taken to be present whenever `volumeInfo` is (the code reads
`data.volumeInfo.title` without a default); every other field is optional
exactly as the code defaults it. -/
structure VolumeInfo where
  title : String
  authors : Option (List String)
  description : Option String
  pageCount : Option Nat
  categories : Option (List String)
  thumbnail : Option String
  publishedDate : Option String
  averageRating : Option Nat
deriving DecidableEq

/-- Outcome of the `fetch` of `googleapis.com/books/v1/volumes/<id>`:
either a non-ok HTTP status (or a network failure, which the code's
`try`/`catch` treats the same way) or a JSON body with `id` and an
optional `volumeInfo`. -/
inductive GoogleVolumeResp
  | httpError (status : Nat)
  | body (id : String) (volumeInfo : Option VolumeInfo)
deriving DecidableEq

/-- Oracle for the Google Books get-by-id endpoint, keyed by book id. -/
def BookApi : Type := String → GoogleVolumeResp

/-- The stable-shape details object built by `getBookDetails`; `none` in
`thumbnail` models the explicit `null`, `none` in `averageRating` models
the placeholder string `'Sin rating'`. -/
structure BookDetails where
  id : String
  title : String
  authors : String
  description : String
  pageCount : Nat
  categories : String
  thumbnail : Option String
  publishedDate : String
  averageRating : Option Nat
deriving DecidableEq

/-- Embeds `getBookDetails` of `src/lib/tools.ts`.  `Except.error` carries
the error message of the `{error}` object the code returns (`'error' in
result` on the caller side). -/
def getBookDetails (api : BookApi) (bookId : String) : Except String BookDetails :=
  match api bookId with
  | .httpError _ => .error "Error al obtener detalles del libro"
  | .body id volumeInfo =>
    match volumeInfo with
    | none => .error "Libro no encontrado"
    | some v =>
      .ok {
        id := id
        title := v.title
        authors := jsOrString (v.authors.map (String.intercalate ", ")) "Autor desconocido"
        description := jsOrString v.description "Sin descripción"
        pageCount := v.pageCount.getD 0
        categories := jsOrString (v.categories.map (String.intercalate ", ")) "Sin categoría"
        thumbnail := jsOrNullString v.thumbnail
        publishedDate := jsOrString v.publishedDate "Fecha desconocida"
        averageRating := jsOrNullNat v.averageRating
      }

/-- The `volumeInfo` object of one item of a Google Books search response;
every field, including the title, may be absent. -/
structure RawSearchVolumeInfo where
  title : Option String
  authors : Option (List String)
  thumbnail : Option String
  description : Option String
deriving DecidableEq

/-- One raw item of a Google Books search response; both `id` and
`volumeInfo` may be absent. -/
structure RawSearchItem where
  id : Option String
  volumeInfo : Option RawSearchVolumeInfo
deriving DecidableEq

/-- Outcome of the `fetch` of the search endpoint: non-ok status (or
network failure), or a body whose `items` field may be absent. -/
inductive GoogleSearchResp
  | httpError (status : Nat)
  | body (items : Option (List RawSearchItem))
deriving DecidableEq

/-- Oracle for the Google Books search endpoint; the second argument is
the `maxResults` URL parameter the code puts in the request. -/
def SearchApi : Type := String → Nat → GoogleSearchResp

/-- The per-item summary object built by `searchBooks`. -/
structure BookSummary where
  id : String
  title : String
  authors : String
  thumbnail : Option String
  description : String
deriving DecidableEq

/-- The three result shapes of `searchBooks`: a book list with its count,
the empty-response message object, and the caught-exception
`\x7berror: 'Error al buscar libros', books: []\x7d` object. -/
inductive SearchBooksResult
  | results (books : List BookSummary)
  | noResults
  | failure
deriving DecidableEq

/-- The filter callback of `searchBooks`.  `hasBasicInfo` mirrors
`item.volumeInfo && item.volumeInfo.title && item.id` (short-circuit, so
an absent `volumeInfo` never dereferences `title`).  The computation of
`isNotProblematicId` evaluates `item.id.includes(...)` unconditionally,
which throws a `TypeError` when `item.id` is absent; the thrown exception
is the `Except.error` case. -/
def searchFilterPred (item : RawSearchItem) : Except Unit Bool :=
  let hasBasicInfo : Bool :=
    match item.volumeInfo with
    | none => false
    | some vi => jsTruthyStr vi.title && jsTruthyStr item.id
  match item.id with
  | none => .error ()
  | some i =>
    .ok (hasBasicInfo && (!(strIncludes i "AAAMAAJ") && !(strIncludes i "AAAQBAJ")))

/-- `Array.prototype.filter` with a callback that may throw: callbacks run
left to right and the first exception propagates. -/
def filterThrow (p : RawSearchItem → Except Unit Bool) :
    List RawSearchItem → Except Unit (List RawSearchItem)
  | [] => .ok []
  | x :: xs => do
    let keep ← p x
    let rest ← filterThrow p xs
    pure (if keep then x :: rest else rest)

/-- The mapping step of `searchBooks` applied to an item that passed the
filter (so `id`, `volumeInfo` and `title` are present; the `getD ""`
defaults only make the function total). -/
def toBookSummary (item : RawSearchItem) : BookSummary :=
  { id := item.id.getD ""
    title := (item.volumeInfo.bind (·.title)).getD ""
    authors := jsOrString ((item.volumeInfo.bind (·.authors)).map (String.intercalate ", "))
      "Autor desconocido"
    thumbnail := jsOrNullString (item.volumeInfo.bind (·.thumbnail))
    description := jsOrString ((item.volumeInfo.bind (·.description)).map (fun s => s.take 200))
      "Sin descripción" }

/-- Embeds `searchBooks` of `src/lib/tools.ts`: request `maxResults * 2`
raw results, filter out problematic or incomplete items, truncate to
`maxResults`, map to summaries.  A throw anywhere inside the `try` (the
non-ok fetch or the filter callback's `TypeError`) lands in the `catch`,
i.e. `SearchBooksResult.failure`. -/
def searchBooks (api : SearchApi) (query : String) (maxResults : Nat) : SearchBooksResult :=
  match api query (maxResults * 2) with
  | .httpError _ => .failure
  | .body none => .noResults
  | .body (some items) =>
    if items.length = 0 then .noResults
    else
      match filterThrow searchFilterPred items with
      | .error _ => .failure
      | .ok valid => .results ((valid.take maxResults).map toBookSummary)

/-! ## 2. Reading List Store (Prisma-backed) -/

/-- A row of the `readingListItem` table. -/
structure ReadingListItem where
  googleId : String
  title : String
  authors : String
  thumbnail : Option String
  priority : String
  notes : Option String
  addedAt : Nat
deriving DecidableEq

/-- A row of the `readBook` table. -/
structure ReadBook where
  googleId : String
  title : String
  authors : String
  thumbnail : Option String
  pageCount : Nat
  rating : Option Nat
  review : Option String
  finishedAt : Nat
deriving DecidableEq

/-- The reading-list store: the two tables plus a logical clock that
stands for the wall-clock timestamps the schema defaults `addedAt` and
`finishedAt` to. -/
structure DB where
  readingList : List ReadingListItem
  readBooks : List ReadBook
  now : Nat
deriving DecidableEq

/-- The Prisma error code the code matches on (`error.code === 'P2002'`,
a unique-constraint violation). -/
inductive PrismaError
  | P2002
deriving DecidableEq

/-- Modelled from the spec: the Prisma schema is not under `src/`; per the
spec's data model, `PendingBookEntry` has `externalId (unique)` ("at most
one pending entry per externalId") and `addedAt` defaults to the creation
time.  `create` raises `P2002` on a uniqueness violation, otherwise
appends the row. -/
def createReadingListItem (db : DB) (googleId title authors : String)
    (thumbnail : Option String) (priority : String) (notes : Option String) :
    Except PrismaError (ReadingListItem × DB) :=
  if db.readingList.any (fun e => e.googleId == googleId) then .error .P2002
  else
    let item : ReadingListItem :=
      ⟨googleId, title, authors, thumbnail, priority, notes, db.now⟩
    .ok (item, { db with readingList := db.readingList ++ [item], now := db.now + 1 })

/-- Modelled from the spec: the Prisma schema is not under `src/`; per the
spec's data model, `ReadBookEntry` has `externalId (unique)` and
`finishedAt` defaults to the creation time.  `create` raises `P2002` on a
uniqueness violation, otherwise appends the row. -/
def createReadBook (db : DB) (googleId title authors : String) (thumbnail : Option String)
    (pageCount : Nat) (rating : Option Nat) (review : Option String) :
    Except PrismaError (ReadBook × DB) :=
  if db.readBooks.any (fun e => e.googleId == googleId) then .error .P2002
  else
    let rb : ReadBook := ⟨googleId, title, authors, thumbnail, pageCount, rating, review, db.now⟩
    .ok (rb, { db with readBooks := db.readBooks ++ [rb], now := db.now + 1 })

/-- `prisma.readingListItem.findFirst` with a `googleId` filter: the first
matching row in table order. -/
def findFirstReadingListItem (db : DB) (googleId : String) : Option ReadingListItem :=
  db.readingList.find? (fun e => e.googleId == googleId)

/-- `prisma.readingListItem.deleteMany` with a `googleId` filter. -/
def deleteManyReadingListItem (db : DB) (googleId : String) : DB :=
  { db with readingList := db.readingList.filter (fun e => !(e.googleId == googleId)) }

/-- Insertion step of a stable descending sort by a `Nat` key: the new
element goes after every element with a greater-or-equal key. -/
def insertDescBy {α : Type} (key : α → Nat) (x : α) : List α → List α
  | [] => [x]
  | y :: ys => if key x ≤ key y then y :: insertDescBy key x ys else x :: y :: ys

/-- Stable descending sort by a `Nat` key (models both Prisma's
`orderBy: desc` and `Array.prototype.sort` with the comparator
`(a, b) => b - a`, which is stable per ES2019). -/
def sortDescBy {α : Type} (key : α → Nat) (l : List α) : List α :=
  l.foldr (insertDescBy key) []

/-! ## 3. Reading-list tools -/

/-- The three result shapes of `addToReadingList`: the not-available
`\x7berror, suggestion\x7d` object returned when metadata resolution
fails, the `\x7bsuccess: true, message, book\x7d` object, and the
`P2002`-mapped `\x7bsuccess: false, error: "Este libro ya está en tu
lista de lectura"\x7d` object. -/
inductive AddToReadingListResult
  | notAvailable
  | success (book : ReadingListItem)
  | duplicate
deriving DecidableEq

/-- Embeds `addToReadingList` of `src/lib/tools.ts`. -/
def addToReadingList (api : BookApi) (db : DB) (bookId : String)
    (priority : Option String) (notes : Option String) : AddToReadingListResult × DB :=
  match getBookDetails api bookId with
  | .error _ => (.notAvailable, db)
  | .ok bookInfo =>
    match createReadingListItem db bookId bookInfo.title bookInfo.authors bookInfo.thumbnail
        (jsOrString priority "medium") (jsOrNullString notes) with
    | .ok (item, db') => (.success item, db')
    | .error .P2002 => (.duplicate, db)

/-- The `\x7bbooks, count\x7d` object returned by `getReadingList`. -/
structure ReadingListOut where
  books : List ReadingListItem
  count : Nat
deriving DecidableEq

/-- Embeds `getReadingList` of `src/lib/tools.ts`: `findMany` with
`take: limit` and `orderBy: \x7baddedAt: 'desc'\x7d`. -/
def getReadingList (db : DB) (limit : Nat) : ReadingListOut :=
  let items := (sortDescBy (fun e => e.addedAt) db.readingList).take limit
  ⟨items, items.length⟩

/-- The book-info record `markAsRead` assembles before creating the read
row. -/
structure MarkBookInfo where
  title : String
  authors : String
  thumbnail : Option String
  pageCount : Nat
deriving DecidableEq

/-- The three result shapes of `markAsRead`: the not-available
`\x7bsuccess: false, error\x7d` object, the `\x7bsuccess: true, message,
book\x7d` object, and the `P2002`-mapped `\x7bsuccess: false, error:
"Este libro ya fue marcado como leído anteriormente"\x7d` object. -/
inductive MarkAsReadResult
  | notAvailable
  | success (book : ReadBook)
  | alreadyRead
deriving DecidableEq

/-- Embeds `markAsRead` of `src/lib/tools.ts`: prefer the metadata of a
matching reading-list row (with `pageCount := 0`), fall back to
`getBookDetails` otherwise; create the read row, then `deleteMany` the
matching reading-list rows. -/
def markAsRead (api : BookApi) (db : DB) (bookId : String) (rating : Option Nat)
    (review : Option String) : MarkAsReadResult × DB :=
  let infoE : Except Unit MarkBookInfo :=
    match findFirstReadingListItem db bookId with
    | some bookInList =>
      .ok ⟨bookInList.title, jsOrString (some bookInList.authors) "Autor desconocido",
        bookInList.thumbnail, 0⟩
    | none =>
      match getBookDetails api bookId with
      | .error _ => .error ()
      | .ok details => .ok ⟨details.title, details.authors, details.thumbnail, details.pageCount⟩
  match infoE with
  | .error _ => (.notAvailable, db)
  | .ok bookInfo =>
    match createReadBook db bookId bookInfo.title bookInfo.authors bookInfo.thumbnail
        bookInfo.pageCount (jsOrNullNat rating) (jsOrNullString review) with
    | .error .P2002 => (.alreadyRead, db)
    | .ok (readBook, db') => (.success readBook, deleteManyReadingListItem db' bookId)

/-- The stats object returned by `getReadingStats`; `averageRating`
models the decimal string `avgRating.toFixed(1)` as an exact rational
with one decimal place. -/
structure ReadingStats where
  totalBooksRead : Nat
  totalPages : Nat
  averageRating : ℚ
  topAuthors : List (String × Nat)
deriving DecidableEq

/-- Rounding to one decimal place (the model of `Number.toFixed(1)` on
the exact rational value). -/
def toFixed1 (q : ℚ) : ℚ := ((round (q * 10) : ℤ) : ℚ) / 10

/-- The body of the `authors.forEach` counting loop of `getReadingStats`:
bump the count of an author already seen, otherwise append it (object
keys keep insertion order for non-numeric strings). -/
def bumpAuthor (acc : List (String × Nat)) (author : String) : List (String × Nat) :=
  if acc.any (fun p => p.1 == author) then
    acc.map (fun p => if p.1 == author then (p.1, p.2 + 1) else p)
  else acc ++ [(author, 1)]

/-- Embeds `getReadingStats` of `src/lib/tools.ts`.  The `period`
argument is accepted and never read, exactly as in the code. -/
def getReadingStats (db : DB) (period : String) : ReadingStats :=
  let books := db.readBooks
  let booksWithRating := books.filter (fun b => jsTruthyNat b.rating)
  let avgRating : ℚ :=
    if 0 < booksWithRating.length then
      ((booksWithRating.foldl (fun sum b => sum + b.rating.getD 0) 0 : Nat) : ℚ) /
        (booksWithRating.length : ℚ)
    else 0
  let authors := (books.map (fun b => b.authors)).filter (fun a => a != "")
  { totalBooksRead := books.length
    totalPages := books.foldl (fun sum book => sum + book.pageCount) 0
    averageRating := toFixed1 avgRating
    topAuthors := (sortDescBy (fun p => p.2) (authors.foldl bumpAuthor [])).take 3 }

/-! ## 4. Chat Orchestrator (`POST` of `src/app/api/chat/route.ts`)

The six tool implementations perform network and database effects; for
the orchestrator they are abstracted as oracle functions from the parsed
argument object (type `α`) to either a thrown exception or a
JSON-serializable result (type `ω`), and `JSON.parse` as an oracle from
the raw argument string to an optional parsed object (`none` models a
thrown `SyntaxError`). -/

/-- The schema of one parameter of a tool definition (descriptions,
defaults and numeric bounds are prose hints to the LLM and are elided). -/
structure ToolProperty where
  name : String
  type : String
  enumVals : Option (List String)
deriving DecidableEq

/-- The `function` object of one tool definition. -/
structure ToolFunctionDef where
  name : String
  properties : List ToolProperty
  required : List String
deriving DecidableEq

/-- One entry of `toolDefinitions` (each has `type: "function"`). -/
structure ToolDef where
  function : ToolFunctionDef
deriving DecidableEq

/-- Embeds `toolDefinitions` of `src/lib/tools.ts`: the six tool schemas
offered to the LLM. -/
def toolDefinitions : List ToolDef :=
  [⟨⟨"searchBooks", [⟨"query", "string", none⟩, ⟨"maxResults", "number", none⟩], ["query"]⟩⟩,
   ⟨⟨"getBookDetails", [⟨"bookId", "string", none⟩], ["bookId"]⟩⟩,
   ⟨⟨"addToReadingList",
     [⟨"bookId", "string", none⟩, ⟨"priority", "string", some ["high", "medium", "low"]⟩,
      ⟨"notes", "string", none⟩], ["bookId"]⟩⟩,
   ⟨⟨"getReadingList", [⟨"limit", "number", none⟩], []⟩⟩,
   ⟨⟨"markAsRead",
     [⟨"bookId", "string", none⟩, ⟨"rating", "number", none⟩, ⟨"review", "string", none⟩],
     ["bookId"]⟩⟩,
   ⟨⟨"getReadingStats", [⟨"period", "string", some ["all-time", "year", "month"]⟩], []⟩⟩]

/-- The `function` object of a tool call in the LLM response. -/
structure ToolCallFunction where
  name : String
  arguments : String
deriving DecidableEq

/-- A tool call as emitted by the LLM: identifier plus function name and
raw JSON argument string. -/
structure RawToolCall where
  id : String
  function : ToolCallFunction
deriving DecidableEq

/-- The content of one tool-result message: the serialized tool result,
or the `\x7berror: 'Herramienta no encontrada'\x7d` object of the switch
default, or the `\x7berror: 'Error al ejecutar <name>'\x7d` object built
by the per-call `catch`. -/
inductive ToolResultContent (ω : Type)
  | value (v : ω)
  | toolNotFound
  | execError (functionName : String)
deriving DecidableEq

/-- One entry of the `toolResults` array: a `role: "tool"` message
tagged with the originating call's identifier. -/
structure ToolResultMsg (ω : Type) where
  tool_call_id : String
  content : ToolResultContent ω
deriving DecidableEq

/-- Oracles for the effectful steps of one tool call: `JSON.parse` of the
argument string, and the six tool implementations. -/
structure ToolEnv (α ω : Type) where
  parseJson : String → Option α
  searchBooksImpl : α → Except Unit ω
  getBookDetailsImpl : α → Except Unit ω
  addToReadingListImpl : α → Except Unit ω
  getReadingListImpl : α → Except Unit ω
  markAsReadImpl : α → Except Unit ω
  getReadingStatsImpl : α → Except Unit ω

/-- The `switch (functionName)` of the route: dispatch to one of six
known tools (whose invocation may throw) or fall through to the
structured not-found object, which is a normal result, not a throw. -/
def execSwitch {α ω : Type} (env : ToolEnv α ω) (functionName : String) (args : α) :
    Except Unit (ToolResultContent ω) :=
  match functionName with
  | "searchBooks" => (env.searchBooksImpl args).map ToolResultContent.value
  | "getBookDetails" => (env.getBookDetailsImpl args).map ToolResultContent.value
  | "addToReadingList" => (env.addToReadingListImpl args).map ToolResultContent.value
  | "getReadingList" => (env.getReadingListImpl args).map ToolResultContent.value
  | "markAsRead" => (env.markAsReadImpl args).map ToolResultContent.value
  | "getReadingStats" => (env.getReadingStatsImpl args).map ToolResultContent.value
  | _ => .ok .toolNotFound

/-- The `for (const toolCall of assistantMessage.tool_calls)` loop.
`JSON.parse(toolCall.function.arguments)` runs before the per-call
`try`, so a parse failure propagates out of the loop (to the route's
outer catch); an exception thrown by the dispatched tool is caught and
converted to the `execError` content, and every processed call pushes
exactly one result tagged with its id. -/
def runToolCalls {α ω : Type} (env : ToolEnv α ω) :
    List RawToolCall → Except Unit (List (ToolResultMsg ω))
  | [] => .ok []
  | toolCall :: rest =>
    match env.parseJson toolCall.function.arguments with
    | none => .error ()
    | some args =>
      let result : ToolResultContent ω :=
        match execSwitch env toolCall.function.name args with
        | .ok r => r
        | .error _ => .execError toolCall.function.name
      match runToolCalls env rest with
      | .error e => .error e
      | .ok results => .ok (⟨toolCall.id, result⟩ :: results)

/-- A message of the conversation sent to the LLM provider: a plain
role/content message, the assistant message carrying tool calls, or a
tool-result message. -/
inductive Msg (ω : Type)
  | plain (role : String) (content : String)
  | assistantToolCalls (content : Option String) (tool_calls : List RawToolCall)
  | toolResult (tool_call_id : String) (content : ToolResultContent ω)
deriving DecidableEq

/-- An element of `body.messages` in the inbound request; `content` may
be absent (`String(msg.content || '')`). -/
structure InMsg where
  role : String
  content : Option String
deriving DecidableEq

/-- One outbound LLM-provider call as recorded in the request trace:
the message sequence sent and the `tools` field of the request body
(present only when tool schemas are offered). -/
structure LlmCallRec (ω : Type) where
  messages : List (Msg ω)
  tools : Option (List ToolDef)
deriving DecidableEq

/-- The provider's answer to one call: a non-ok HTTP status (the code
then throws, landing in the outer catch), or the
`choices[0].message` object with its optional `content` and its
tool calls (`undefined` and `[]` behave identically and are both
modelled by `[]`). -/
inductive LlmResp
  | httpError (status : Nat)
  | message (content : Option String) (tool_calls : List RawToolCall)
deriving DecidableEq

/-- The route's response: `\x7bcontent, toolsUsed\x7d` on success, or the
status-500 `\x7berror: 'Internal server error'\x7d` body produced by the
outer catch. -/
inductive PostOutcome (ω : Type)
  | ok (content : Option String) (toolsUsed : List String)
  | serverError
deriving DecidableEq

/-- The fixed system prompt of the route (the full Spanish prose is
carried verbatim nowhere in the logic; it is an opaque constant to every
theorem below). -/
def systemPromptText : String :=
  "Eres un asistente de recomendación de libros amigable y entusiasta llamado \"Book Advisor\".\n\nTu trabajo es ayudar a los usuarios a:\n- Descubrir nuevos libros según sus intereses\n- Gestionar su lista de lectura personal\n- Hacer seguimiento de los libros que han leído\n- Analizar sus hábitos y estadísticas de lectura\n\nREGLAS CRÍTICAS SOBRE MANEJO DE CONTEXTO:\n\nCuando acabas de ejecutar \"searchBooks\" y obtienes una lista de libros, CADA libro tiene un campo \"id\" (el bookId de Google Books).\n\nSi el usuario dice \"agrega el primero\", \"agrega ese libro\", \"agrégalo\":\n1. NO vuelvas a buscar\n2. Toma el \"id\" del libro correspondiente de los resultados anteriores\n3. Ejecuta \"addToReadingList\" con ese \"id\"\n\nEjemplo:\n- Usuario: \"Busca libros de Asimov\"\n- Tú ejecutas searchBooks → obtienes [\x7bid: \"ABC123\", title: \"Fundación\"\x7d, \x7bid: \"XYZ789\", title: \"Yo, Robot\"\x7d]\n- Usuario: \"Agrega el primero\"\n- Tú DEBES ejecutar: addToReadingList con bookId=\"ABC123\" (NO busques de nuevo)\n\nREGLAS IMPORTANTES SOBRE EL USO DE HERRAMIENTAS:\n\n1. SIEMPRE usa \"searchBooks\" cuando:\n   - El usuario pida recomendaciones por PRIMERA VEZ\n   - Busque libros sobre un tema\n   - Mencione un autor o título y NO tengas resultados previos\n\n2. SIEMPRE usa \"getBookDetails\" cuando:\n   - El usuario diga \"cuéntame más sobre [libro]\"\n   - Pregunte por detalles específicos\n   - Necesites información completa del libro\n\n3. SIEMPRE usa \"addToReadingList\" cuando:\n   - El usuario diga \"agrégalo\", \"guárdalo\", \"quiero leerlo\", \"agrega el primero/segundo/tercero\"\n   - DEBES usar el bookId (campo \"id\") de los resultados de búsqueda previos\n   - NO busques de nuevo si ya tienes los resultados\n\n4. SIEMPRE usa \"getReadingList\" cuando:\n   - Pregunten \"¿qué tengo en mi lista?\"\n   - \"muéstrame mi reading list\"\n\n5. **CRÍTICO - MARCAR COMO LEÍDO:**\n   Cuando el usuario quiera marcar un libro como leído:\n   - PRIMERO ejecuta \"getReadingList\" para ver qué libros tiene\n   - De los resultados, identifica el libro que menciona el usuario\n   - Extrae el campo \"googleId\" de ese libro (NO uses \"id\", usa \"googleId\")\n   - Luego ejecuta \"markAsRead\" con ese \"googleId\"\n   - NUNCA inventes IDs como \"xxxxxxxx\" o \"XYZ123\"\n\n6. SIEMPRE usa \"getReadingStats\" cuando:\n   - Pregunten por estadísticas, números, análisis\n\nSé conversacional, entusiasta y motivador sobre la lectura."

/-- The fixed system message prepended to the cleaned inbound history. -/
def systemMessage {ω : Type} : Msg ω := .plain "system" systemPromptText

/-- The `body.messages.map(...)` cleaning step:
`\x7brole: msg.role, content: String(msg.content || '').trim()\x7d`. -/
def cleanMessage {ω : Type} (m : InMsg) : Msg ω := .plain m.role ((m.content.getD "").trim)

/-- `messagesWithSystem`: the system prompt followed by the cleaned
inbound messages. -/
def composedMessages {ω : Type} (body : List InMsg) : List (Msg ω) :=
  systemMessage :: body.map cleanMessage

/-- The first outbound LLM call of a chat turn: the composed messages
plus the six tool schemas. -/
def firstRequest {ω : Type} (body : List InMsg) : LlmCallRec ω :=
  ⟨composedMessages body, some toolDefinitions⟩

/-- Embeds `POST` of `src/app/api/chat/route.ts`.  Returns the route's
response together with the trace of outbound LLM-provider calls, in
order.  `llm` is the provider oracle. -/
def POST {α ω : Type} (env : ToolEnv α ω) (llm : LlmCallRec ω → LlmResp)
    (body : List InMsg) : PostOutcome ω × List (LlmCallRec ω) :=
  match llm (firstRequest body) with
  | .httpError _ => (.serverError, [firstRequest body])
  | .message content tool_calls =>
    if 0 < tool_calls.length then
      match runToolCalls env tool_calls with
      | .error _ => (.serverError, [firstRequest body])
      | .ok toolResults =>
        let secondRequest : LlmCallRec ω :=
          ⟨composedMessages body ++
             Msg.assistantToolCalls content tool_calls ::
               toolResults.map (fun r => Msg.toolResult r.tool_call_id r.content),
           none⟩
        match llm secondRequest with
        | .httpError _ => (.serverError, [firstRequest body, secondRequest])
        | .message finalContent _ =>
          (.ok finalContent (tool_calls.map (fun tc => tc.function.name)),
           [firstRequest body, secondRequest])
    else (.ok content [], [firstRequest body])

/-! ## 5. Concrete fixtures used by witnesses and counterexamples -/

/-- A tool environment whose `JSON.parse` always succeeds, whose
`getBookDetails` invocation throws, and whose other tools return `0`. -/
def envW : ToolEnv Unit Nat :=
  ⟨fun _ => some (), fun _ => .ok 0, fun _ => .error (), fun _ => .ok 0,
   fun _ => .ok 0, fun _ => .ok 0, fun _ => .ok 0⟩

/-- Two concrete tool calls: a search call and a details call. -/
def tcsW : List RawToolCall :=
  [⟨"call_1", ⟨"searchBooks", "q asimov"⟩⟩, ⟨"call_2", ⟨"getBookDetails", "b B1"⟩⟩]

/-- An LLM oracle that answers the tools-offered call with `tcsW` and the
follow-up call with plain text. -/
def llmW : LlmCallRec Nat → LlmResp := fun req =>
  match req.tools with
  | some _ => .message none tcsW
  | none => .message (some "listo") []

/-- A tool environment whose `JSON.parse` always throws. -/
def envParseFailure : ToolEnv Unit Nat :=
  ⟨fun _ => none, fun _ => .ok 0, fun _ => .ok 0, fun _ => .ok 0,
   fun _ => .ok 0, fun _ => .ok 0, fun _ => .ok 0⟩

/-- An LLM oracle that asks for a single `searchBooks` call whose
argument string is not valid JSON. -/
def llmOneCall : LlmCallRec Nat → LlmResp := fun req =>
  match req.tools with
  | some _ => .message none [⟨"call_1", ⟨"searchBooks", "not json"⟩⟩]
  | none => .message (some "done") []

/-- A tool call whose name is none of the six known tools. -/
def tcUnknown : RawToolCall := ⟨"call_9", ⟨"formatDisk", "null"⟩⟩

/-- An LLM oracle that asks for the single unknown tool call. -/
def llmUnknown : LlmCallRec Nat → LlmResp := fun req =>
  match req.tools with
  | some _ => .message none [tcUnknown]
  | none => .message (some "ok") []

/-- A book API on which every id resolves to the same complete volume. -/
def apiW : BookApi := fun _ =>
  .body "X1" (some ⟨"Dune", some ["Frank Herbert"], some "desert planet", some 412,
    some ["SciFi"], none, some "1965", some 4⟩)

/-- A book API that always answers with a non-ok HTTP status. -/
def apiDown : BookApi := fun _ => .httpError 404

/-- The empty store. -/
def dbEmpty : DB := ⟨[], [], 0⟩

/-- A concrete pending entry for externalId `X1`. -/
def itemW : ReadingListItem := ⟨"X1", "Dune", "Frank Herbert", none, "medium", none, 0⟩

/-- A store holding exactly the pending entry `itemW`. -/
def dbPending : DB := ⟨[itemW], [], 1⟩

/-- A concrete read entry for the same externalId `X1`. -/
def readW : ReadBook := ⟨"X1", "Dune", "Frank Herbert", none, 412, some 5, none, 1⟩

/-- A store where `X1` is simultaneously pending and already read. -/
def dbPendingAndRead : DB := ⟨[itemW], [readW], 2⟩

/-- A store with three read books, two rated, two sharing an author. -/
def dbStatsW : DB :=
  ⟨[], [⟨"R1", "A", "Ann", none, 100, some 4, none, 0⟩,
        ⟨"R2", "B", "Bob", none, 200, some 5, none, 1⟩,
        ⟨"R3", "C", "Ann", none, 50, none, none, 2⟩], 3⟩

/-- A store whose single read book carries no rating. -/
def dbNoRatings : DB := ⟨[], [⟨"R1", "A", "Ann", none, 100, none, none, 0⟩], 1⟩

/-- A raw search item with id and title present. -/
def goodSearchItem : RawSearchItem :=
  ⟨some "GOODID1", some ⟨some "Real Book", some ["Ann Author"], none, some "desc"⟩⟩

/-- A raw search item whose `id` field is absent (its title is present). -/
def missingIdItem : RawSearchItem := ⟨none, some ⟨some "Ghost Book", none, none, none⟩⟩

/-- A search API returning the missing-id item followed by a valid item. -/
def searchApiWithMissingId : SearchApi := fun _ _ => .body (some [missingIdItem, goodSearchItem])

/-- A search API returning only the valid item. -/
def searchApiGoodOnly : SearchApi := fun _ _ => .body (some [goodSearchItem])

/-! ## 6. Helper lemmas -/

theorem mem_insertDescBy {α : Type} (key : α → Nat) (x a : α) :
    ∀ l : List α, a ∈ insertDescBy key x l → a = x ∨ a ∈ l
  | [] => by simp [insertDescBy]
  | y :: ys => by
    simp only [insertDescBy]
    split
    · intro h
      rcases List.mem_cons.1 h with h | h
      · exact Or.inr (List.mem_cons.2 (Or.inl h))
      · rcases mem_insertDescBy key x a ys h with h | h
        · exact Or.inl h
        · exact Or.inr (List.mem_cons.2 (Or.inr h))
    · intro h
      exact (List.mem_cons.1 h).imp id id

theorem mem_sortDescBy {α : Type} (key : α → Nat) (a : α) :
    ∀ l : List α, a ∈ sortDescBy key l → a ∈ l
  | [] => by simp [sortDescBy]
  | x :: xs => by
    intro h
    rcases mem_insertDescBy key x a _ h with h | h
    · simp [h]
    · exact List.mem_cons.2 (Or.inr (mem_sortDescBy key a xs h))

theorem pairwise_insertDescBy {α : Type} (key : α → Nat) (x : α) :
    ∀ l : List α, l.Pairwise (fun u v => key v ≤ key u) →
      (insertDescBy key x l).Pairwise (fun u v => key v ≤ key u)
  | [] => by simp [insertDescBy]
  | y :: ys => by
    intro h
    rw [List.pairwise_cons] at h
    obtain ⟨hy, hys⟩ := h
    simp only [insertDescBy]
    split
    case isTrue hle =>
      rw [List.pairwise_cons]
      refine ⟨?_, pairwise_insertDescBy key x ys hys⟩
      intro a ha
      rcases mem_insertDescBy key x a ys ha with rfl | ha
      · exact hle
      · exact hy a ha
    case isFalse hle =>
      rw [List.pairwise_cons]
      refine ⟨?_, List.pairwise_cons.2 ⟨hy, hys⟩⟩
      intro a ha
      rcases List.mem_cons.1 ha with rfl | ha
      · exact le_of_not_le hle
      · exact le_trans (hy a ha) (le_of_not_le hle)

theorem pairwise_sortDescBy {α : Type} (key : α → Nat) :
    ∀ l : List α, (sortDescBy key l).Pairwise (fun u v => key v ≤ key u)
  | [] => by simp [sortDescBy]
  | x :: xs => pairwise_insertDescBy key x _ (pairwise_sortDescBy key xs)

/-- The trace of LLM calls of one chat turn is either the first request
alone or the first request followed by one request without tools. -/
theorem post_trace_shape {α ω : Type} (env : ToolEnv α ω) (llm : LlmCallRec ω → LlmResp)
    (body : List InMsg) :
    (POST env llm body).2 = [firstRequest body] ∨
    ∃ sr : LlmCallRec ω, sr.tools = none ∧ (POST env llm body).2 = [firstRequest body, sr] := by
  unfold POST
  split
  · exact Or.inl rfl
  · split
    · split
      · exact Or.inl rfl
      · dsimp only
        split
        · exact Or.inr ⟨_, rfl, rfl⟩
        · exact Or.inr ⟨_, rfl, rfl⟩
    · exact Or.inl rfl

/-! ## 7. Claim theorems -/

/-- C7: for every state of the read-books store and any two values of the
`period` argument, `getReadingStats` returns the same result — the
argument is accepted but never filters the computation. -/
theorem getReadingStats_ignores_period (db : DB) (period₁ period₂ : String) :
    getReadingStats db period₁ = getReadingStats db period₂ := rfl

/-- C2: every chat request makes at most two LLM-provider calls; the
first call carries the six tool schemas and every later call carries
none, so at most one round of tool execution can occur per request. -/
theorem post_at_most_two_llm_calls {α ω : Type} (env : ToolEnv α ω)
    (llm : LlmCallRec ω → LlmResp) (body : List InMsg) :
    (POST env llm body).2.length ≤ 2 ∧
    (POST env llm body).2.head? = some (firstRequest body) ∧
    (firstRequest (ω := ω) body).tools = some toolDefinitions ∧
    toolDefinitions.length = 6 ∧
    ∀ r ∈ (POST env llm body).2.tail, r.tools = none := by
  rcases post_trace_shape env llm body with h | ⟨sr, hsr, h⟩ <;> rw [h]
  · exact ⟨by simp, rfl, rfl, rfl, by simp⟩
  · exact ⟨by simp, rfl, rfl, rfl, by simp [hsr]⟩

/-- When every tool call's argument string parses, the loop yields one
result per call, in order, tagged with the call's identifier, and an
exception thrown by a dispatched tool shows up as that call's
`execError` result instead of aborting the batch. -/
theorem runToolCalls_ok_of_parse {α ω : Type} (env : ToolEnv α ω) :
    ∀ tcs : List RawToolCall,
      (∀ tc ∈ tcs, (env.parseJson tc.function.arguments).isSome) →
      ∃ results : List (ToolResultMsg ω),
        runToolCalls env tcs = .ok results ∧
        results.length = tcs.length ∧
        (∀ (i : Nat) (h1 : i < results.length) (h2 : i < tcs.length),
          (results.get ⟨i, h1⟩).tool_call_id = (tcs.get ⟨i, h2⟩).id) ∧
        (∀ tc ∈ tcs, ∀ args, env.parseJson tc.function.arguments = some args →
          execSwitch env tc.function.name args = .error () →
          (⟨tc.id, .execError tc.function.name⟩ : ToolResultMsg ω) ∈ results)
  | [] => by
    intro _
    exact ⟨[], rfl, rfl, by intro i h1 h2; exact absurd h1 (by simp), by simp⟩
  | tc :: rest => by
    intro hparse
    obtain ⟨args, hargs⟩ := Option.isSome_iff_exists.1 (hparse tc (List.mem_cons_self tc rest))
    obtain ⟨results, hrun, hlen, hids, herr⟩ :=
      runToolCalls_ok_of_parse env rest (fun t ht => hparse t (List.mem_cons_of_mem tc ht))
    refine ⟨⟨tc.id,
        match execSwitch env tc.function.name args with
        | .ok r => r
        | .error _ => .execError tc.function.name⟩ :: results, ?_, by simp [hlen], ?_, ?_⟩
    · simp [runToolCalls, hargs, hrun]
    · intro i h1 h2
      match i with
      | 0 => rfl
      | i + 1 =>
        exact hids i (Nat.lt_of_succ_lt_succ (by simpa using h1))
          (Nat.lt_of_succ_lt_succ (by simpa using h2))
    · intro t ht args' hargs' hsw
      rcases List.mem_cons.1 ht with rfl | ht
      · have : args' = args := by rw [hargs] at hargs'; exact (Option.some_inj.1 hargs').symm
        subst this
        rw [hsw]
        exact List.mem_cons_self _ _
      · exact List.mem_cons_of_mem _ (herr t ht args' hargs' hsw)

/-- C1 (amended): a chat turn whose first LLM response contains tool
calls, each with well-formed JSON arguments, produces exactly one tool
result per call — order-matched and tagged by identifier, with a thrown
tool invocation converted to a structured error result — and those
results are all appended to the message sequence of the (single) second
LLM call. -/
theorem toolBatch_produces_matching_results {α ω : Type} (env : ToolEnv α ω)
    (llm : LlmCallRec ω → LlmResp) (body : List InMsg) (content : Option String)
    (tcs : List RawToolCall)
    (hresp : llm (firstRequest body) = .message content tcs)
    (hne : tcs ≠ [])
    (hparse : ∀ tc ∈ tcs, (env.parseJson tc.function.arguments).isSome) :
    ∃ results : List (ToolResultMsg ω),
      runToolCalls env tcs = .ok results ∧
      results.length = tcs.length ∧
      (∀ (i : Nat) (h1 : i < results.length) (h2 : i < tcs.length),
        (results.get ⟨i, h1⟩).tool_call_id = (tcs.get ⟨i, h2⟩).id) ∧
      (∀ tc ∈ tcs, ∀ args, env.parseJson tc.function.arguments = some args →
        execSwitch env tc.function.name args = .error () →
        (⟨tc.id, .execError tc.function.name⟩ : ToolResultMsg ω) ∈ results) ∧
      (POST env llm body).2 =
        [firstRequest body,
         ⟨composedMessages body ++
            Msg.assistantToolCalls content tcs ::
              results.map (fun r => Msg.toolResult r.tool_call_id r.content),
          none⟩] := by
  obtain ⟨results, hrun, hlen, hids, herr⟩ := runToolCalls_ok_of_parse env tcs hparse
  refine ⟨results, hrun, hlen, hids, herr, ?_⟩
  have h0 : 0 < tcs.length := List.length_pos.2 hne
  unfold POST
  rw [hresp]
  simp only [if_pos h0, hrun]
  split <;> rfl

/-- C1 counterexample: the first LLM response contains one tool call, but
its argument string fails to parse; `JSON.parse` runs outside the
per-call try/catch, so no tool result is produced, no second LLM call is
made, and the whole request becomes a server error. -/
theorem toolBatch_parse_failure_aborts_request :
    llmOneCall (firstRequest []) = .message none [⟨"call_1", ⟨"searchBooks", "not json"⟩⟩] ∧
    envParseFailure.parseJson "not json" = none ∧
    (POST envParseFailure llmOneCall []).1 = .serverError ∧
    (POST envParseFailure llmOneCall []).2.length = 1 :=
  ⟨rfl, rfl, rfl, rfl⟩

/-- C1 witness: the two-call batch of `tcsW` (whose second tool throws)
still yields two matching results and a two-call trace. -/
theorem toolBatch_produces_matching_results_witness :
    llmW (firstRequest []) = .message none tcsW ∧
    tcsW ≠ [] ∧
    (∀ tc ∈ tcsW, (envW.parseJson tc.function.arguments).isSome) ∧
    ∃ results : List (ToolResultMsg Nat),
      runToolCalls envW tcsW = .ok results ∧
      results.length = tcsW.length ∧
      (∀ (i : Nat) (h1 : i < results.length) (h2 : i < tcsW.length),
        (results.get ⟨i, h1⟩).tool_call_id = (tcsW.get ⟨i, h2⟩).id) ∧
      (∀ tc ∈ tcsW, ∀ args, envW.parseJson tc.function.arguments = some args →
        execSwitch envW tc.function.name args = .error () →
        (⟨tc.id, .execError tc.function.name⟩ : ToolResultMsg Nat) ∈ results) ∧
      (POST envW llmW []).2 =
        [firstRequest [],
         ⟨composedMessages [] ++
            Msg.assistantToolCalls none tcsW ::
              results.map (fun r => Msg.toolResult r.tool_call_id r.content),
          none⟩] :=
  ⟨rfl, by decide, by decide,
   toolBatch_produces_matching_results envW llmW [] none tcsW rfl (by decide) (by decide)⟩

/-- C9: the dispatcher answers a tool call whose name is none of the six
known tools with the structured not-found result instead of throwing;
the call still yields exactly one tool result and the turn proceeds to
the second LLM call. -/
theorem unknown_tool_structured_error {α ω : Type} (env : ToolEnv α ω) (tc : RawToolCall)
    (args : α) (llm : LlmCallRec ω → LlmResp) (body : List InMsg) (content : Option String)
    (hname : tc.function.name ∉ toolDefinitions.map (fun d => d.function.name))
    (hparse : env.parseJson tc.function.arguments = some args) :
    execSwitch env tc.function.name args = .ok .toolNotFound ∧
    runToolCalls env [tc] = .ok [⟨tc.id, .toolNotFound⟩] ∧
    (llm (firstRequest body) = .message content [tc] →
      (POST env llm body).2.length = 2) := by
  simp only [toolDefinitions, List.map_cons, List.map_nil, List.mem_cons,
    List.not_mem_nil, or_false, not_or] at hname
  have hsw : execSwitch env tc.function.name args = .ok .toolNotFound := by
    unfold execSwitch
    split <;> simp_all
  have hrun : runToolCalls env [tc] = .ok [⟨tc.id, .toolNotFound⟩] := by
    simp [runToolCalls, hparse, hsw]
  refine ⟨hsw, hrun, ?_⟩
  intro hresp
  unfold POST
  rw [hresp]
  simp only [List.length_cons, List.length_nil, Nat.zero_lt_succ, if_pos, hrun]
  split <;> rfl

/-- C9 witness: dispatching the unknown tool `formatDisk` at a concrete
environment. -/
theorem unknown_tool_structured_error_witness :
    tcUnknown.function.name ∉ toolDefinitions.map (fun d => d.function.name) ∧
    envW.parseJson tcUnknown.function.arguments = some () ∧
    (execSwitch envW tcUnknown.function.name () = .ok .toolNotFound ∧
     runToolCalls envW [tcUnknown] = .ok [⟨tcUnknown.id, .toolNotFound⟩] ∧
     (llmUnknown (firstRequest []) = .message none [tcUnknown] →
       (POST envW llmUnknown []).2.length = 2)) :=
  ⟨by decide, rfl,
   unknown_tool_structured_error envW tcUnknown () llmUnknown [] none (by decide) rfl⟩

/-- C4 (amended): when metadata resolves and no pending entry with the
externalId exists yet, calling `addToReadingList` twice yields one
success and one duplicate error, the second call leaves the store
untouched, exactly one pending entry with that externalId exists
afterwards, and distinctness of pending externalIds is preserved. -/
theorem addToReadingList_twice_duplicate (api : BookApi) (db : DB) (bookId : String)
    (priority₁ notes₁ priority₂ notes₂ : Option String)
    (hres : ∃ info, getBookDetails api bookId = Except.ok info)
    (hfresh : ∀ e ∈ db.readingList, e.googleId ≠ bookId) :
    ∃ item db₁,
      addToReadingList api db bookId priority₁ notes₁ = (.success item, db₁) ∧
      addToReadingList api db₁ bookId priority₂ notes₂ = (.duplicate, db₁) ∧
      item.googleId = bookId ∧
      (db₁.readingList.filter (fun e => e.googleId == bookId)).length = 1 ∧
      ((db.readingList.map (fun e => e.googleId)).Nodup →
        (db₁.readingList.map (fun e => e.googleId)).Nodup) := by
  obtain ⟨info, hinfo⟩ := hres
  have hany : db.readingList.any (fun e => e.googleId == bookId) = false := by
    rw [List.any_eq_false]
    intro e he
    simpa using hfresh e he
  refine ⟨⟨bookId, info.title, info.authors, info.thumbnail, jsOrString priority₁ "medium",
      jsOrNullString notes₁, db.now⟩,
    { db with
        readingList := db.readingList ++
          [⟨bookId, info.title, info.authors, info.thumbnail, jsOrString priority₁ "medium",
            jsOrNullString notes₁, db.now⟩],
        now := db.now + 1 }, ?_, ?_, rfl, ?_, ?_⟩
  · simp [addToReadingList, hinfo, createReadingListItem, hany]
  · have hany2 : (db.readingList ++
        [(⟨bookId, info.title, info.authors, info.thumbnail, jsOrString priority₁ "medium",
          jsOrNullString notes₁, db.now⟩ : ReadingListItem)]).any
        (fun e => e.googleId == bookId) = true := by
      simp [List.any_append]
    simp [addToReadingList, hinfo, createReadingListItem, hany2]
  · have hnil : db.readingList.filter (fun e => e.googleId == bookId) = [] := by
      rw [List.filter_eq_nil_iff]
      intro e he
      simpa using hfresh e he
    simp [List.filter_append, hnil]
  · intro hnd
    simp only [List.map_append, List.map_cons, List.map_nil]
    rw [List.nodup_append]
    refine ⟨hnd, List.nodup_singleton _, ?_⟩
    intro a ha
    simp only [List.mem_map] at ha
    obtain ⟨e, he, rfl⟩ := ha
    simp only [List.mem_singleton]
    intro h
    exact hfresh e he h

/-- When a pending entry matches and no read entry with the externalId
exists, `markAsRead` reads no oracle, creates the read row from the
pending metadata with `pageCount := 0`, and deletes the matching pending
rows; this is the common core of the claims about `markAsRead`. -/
theorem markAsRead_pending_success (api : BookApi) (db : DB) (bookId : String)
    (rating : Option Nat) (review : Option String) (it : ReadingListItem)
    (hpend : findFirstReadingListItem db bookId = some it)
    (hnoread : ∀ rb ∈ db.readBooks, rb.googleId ≠ bookId) :
    markAsRead api db bookId rating review =
      (.success ⟨bookId, it.title, jsOrString (some it.authors) "Autor desconocido",
          it.thumbnail, 0, jsOrNullNat rating, jsOrNullString review, db.now⟩,
       { readingList := db.readingList.filter (fun e => !(e.googleId == bookId)),
         readBooks := db.readBooks ++
           [⟨bookId, it.title, jsOrString (some it.authors) "Autor desconocido",
             it.thumbnail, 0, jsOrNullNat rating, jsOrNullString review, db.now⟩],
         now := db.now + 1 }) := by
  have hany : db.readBooks.any (fun e => e.googleId == bookId) = false := by
    rw [List.any_eq_false]
    intro e he
    simpa using hnoread e he
  simp [markAsRead, hpend, createReadBook, hany, deleteManyReadingListItem]

/-- C3 (amended): for an externalId with a matching pending entry and no
existing read entry, `markAsRead` is independent of the external book
API, builds the single new read entry from the pending metadata, deletes
every matching pending entry, a subsequent `getReadingList` excludes the
id, and `getReadingStats` reports `totalBooksRead` one higher. -/
theorem markAsRead_pending_fresh_transition (api api' : BookApi) (db : DB) (bookId : String)
    (rating : Option Nat) (review : Option String) (it : ReadingListItem)
    (hpend : findFirstReadingListItem db bookId = some it)
    (hnoread : ∀ rb ∈ db.readBooks, rb.googleId ≠ bookId) :
    ∃ rb db',
      markAsRead api db bookId rating review = (.success rb, db') ∧
      markAsRead api' db bookId rating review = (.success rb, db') ∧
      rb.googleId = bookId ∧ rb.title = it.title ∧
      rb.authors = jsOrString (some it.authors) "Autor desconocido" ∧
      rb.thumbnail = it.thumbnail ∧
      db'.readBooks = db.readBooks ++ [rb] ∧
      db'.readingList = db.readingList.filter (fun e => !(e.googleId == bookId)) ∧
      (∀ limit, ∀ e ∈ (getReadingList db' limit).books, e.googleId ≠ bookId) ∧
      (∀ period, (getReadingStats db' period).totalBooksRead =
        (getReadingStats db period).totalBooksRead + 1) := by
  refine ⟨_, _, markAsRead_pending_success api db bookId rating review it hpend hnoread,
    markAsRead_pending_success api' db bookId rating review it hpend hnoread,
    rfl, rfl, rfl, rfl, rfl, rfl, ?_, ?_⟩
  · intro limit e he
    have h1 : e ∈ sortDescBy (fun x => x.addedAt)
        (db.readingList.filter (fun x => !(x.googleId == bookId))) :=
      List.mem_of_mem_take he
    have h2 := mem_sortDescBy _ e _ h1
    have h3 := (List.mem_filter.1 h2).2
    simpa using h3
  · intro period
    simp [getReadingStats]

/-- C3 counterexample: `X1` has a matching pending entry but is already
in the read table; `markAsRead` then answers with the duplicate error,
creates no read entry, and deletes no pending entry, so the claim over
every externalId with a matching pending entry fails. -/
theorem markAsRead_pending_but_already_read :
    (findFirstReadingListItem dbPendingAndRead "X1").isSome = true ∧
    markAsRead apiDown dbPendingAndRead "X1" none none = (.alreadyRead, dbPendingAndRead) ∧
    (markAsRead apiDown dbPendingAndRead "X1" none none).2.readBooks.length =
      dbPendingAndRead.readBooks.length ∧
    ((markAsRead apiDown dbPendingAndRead "X1" none none).2.readingList.map
      (fun e => e.googleId)) = ["X1"] :=
  ⟨rfl, rfl, rfl, rfl⟩

/-- C3 witness: the amended transition at the concrete store holding only
the pending entry `itemW`, evaluated under two different book APIs. -/
theorem markAsRead_pending_fresh_transition_witness :
    findFirstReadingListItem dbPending "X1" = some itemW ∧
    (∀ rb ∈ dbPending.readBooks, rb.googleId ≠ "X1") ∧
    ∃ rb db',
      markAsRead apiDown dbPending "X1" (some 5) none = (.success rb, db') ∧
      markAsRead apiW dbPending "X1" (some 5) none = (.success rb, db') ∧
      rb.googleId = "X1" ∧ rb.title = itemW.title ∧
      rb.authors = jsOrString (some itemW.authors) "Autor desconocido" ∧
      rb.thumbnail = itemW.thumbnail ∧
      db'.readBooks = dbPending.readBooks ++ [rb] ∧
      db'.readingList = dbPending.readingList.filter (fun e => !(e.googleId == "X1")) ∧
      (∀ limit, ∀ e ∈ (getReadingList db' limit).books, e.googleId ≠ "X1") ∧
      (∀ period, (getReadingStats db' period).totalBooksRead =
        (getReadingStats dbPending period).totalBooksRead + 1) :=
  ⟨rfl, by simp [dbPending],
   markAsRead_pending_fresh_transition apiDown apiW dbPending "X1" (some 5) none itemW rfl
     (by simp [dbPending])⟩

/-- C4 counterexample: when a pending entry for the externalId already
exists, metadata still resolves but both of the two calls answer
`duplicate`, so the pair of calls yields no success at all. -/
theorem addToReadingList_pre_existing_both_duplicate :
    (∃ info, getBookDetails apiW "X1" = Except.ok info) ∧
    addToReadingList apiW dbPending "X1" none none = (.duplicate, dbPending) ∧
    addToReadingList apiW (addToReadingList apiW dbPending "X1" none none).2 "X1" none none =
      (.duplicate, dbPending) :=
  ⟨⟨_, rfl⟩, rfl, rfl⟩

/-- C5: when metadata resolution fails, `addToReadingList` returns the
structured not-available payload with the store unchanged, and so does
`markAsRead` when additionally no pending entry matches. -/
theorem unresolvable_id_leaves_storage_unchanged (api : BookApi) (db : DB) (bookId : String)
    (priority notes : Option String) (rating : Option Nat) (review : Option String)
    (hfail : ∃ msg, getBookDetails api bookId = Except.error msg) :
    addToReadingList api db bookId priority notes = (.notAvailable, db) ∧
    (findFirstReadingListItem db bookId = none →
      markAsRead api db bookId rating review = (.notAvailable, db)) := by
  obtain ⟨msg, hmsg⟩ := hfail
  constructor
  · simp [addToReadingList, hmsg]
  · intro hnone
    simp [markAsRead, hnone, hmsg]

/-- C5 witness: `markAsRead("BAD_ID")` and `addToReadingList("BAD_ID")`
against an unreachable book API and the empty store. -/
theorem unresolvable_id_leaves_storage_unchanged_witness :
    (∃ msg, getBookDetails apiDown "BAD_ID" = Except.error msg) ∧
    addToReadingList apiDown dbEmpty "BAD_ID" none none = (.notAvailable, dbEmpty) ∧
    (findFirstReadingListItem dbEmpty "BAD_ID" = none →
      markAsRead apiDown dbEmpty "BAD_ID" none none = (.notAvailable, dbEmpty)) :=
  ⟨⟨_, rfl⟩,
   unresolvable_id_leaves_storage_unchanged apiDown dbEmpty "BAD_ID" none none none none
     ⟨_, rfl⟩⟩

/-- C10: whenever `markAsRead` finds a matching pending entry (and the
creation succeeds), the read entry it creates has `pageCount = 0`, so the
marked book contributes nothing to the `totalPages` of
`getReadingStats`. -/
theorem markAsRead_from_pending_pageCount_zero (api : BookApi) (db : DB) (bookId : String)
    (rating : Option Nat) (review : Option String) (it : ReadingListItem)
    (hpend : findFirstReadingListItem db bookId = some it)
    (hnoread : ∀ rb ∈ db.readBooks, rb.googleId ≠ bookId) :
    ∃ rb db',
      markAsRead api db bookId rating review = (.success rb, db') ∧
      rb.pageCount = 0 ∧
      ∀ period, (getReadingStats db' period).totalPages =
        (getReadingStats db period).totalPages := by
  refine ⟨_, _, markAsRead_pending_success api db bookId rating review it hpend hnoread,
    rfl, ?_⟩
  intro period
  simp [getReadingStats, List.foldl_append]

/-- C10 witness: marking `X1` read from the concrete pending store leaves
`totalPages` unchanged. -/
theorem markAsRead_from_pending_pageCount_zero_witness :
    findFirstReadingListItem dbPending "X1" = some itemW ∧
    (∀ rb ∈ dbPending.readBooks, rb.googleId ≠ "X1") ∧
    ∃ rb db',
      markAsRead apiW dbPending "X1" none none = (.success rb, db') ∧
      rb.pageCount = 0 ∧
      ∀ period, (getReadingStats db' period).totalPages =
        (getReadingStats dbPending period).totalPages :=
  ⟨rfl, by simp [dbPending],
   markAsRead_from_pending_pageCount_zero apiW dbPending "X1" none none itemW rfl
     (by simp [dbPending])⟩

/-- C4 witness: adding `X1` twice to the empty store against the
always-resolving book API. -/
theorem addToReadingList_twice_duplicate_witness :
    (∃ info, getBookDetails apiW "X1" = Except.ok info) ∧
    (∀ e ∈ dbEmpty.readingList, e.googleId ≠ "X1") ∧
    ∃ item db₁,
      addToReadingList apiW dbEmpty "X1" none none = (.success item, db₁) ∧
      addToReadingList apiW db₁ "X1" (some "high") none = (.duplicate, db₁) ∧
      item.googleId = "X1" ∧
      (db₁.readingList.filter (fun e => e.googleId == "X1")).length = 1 ∧
      ((dbEmpty.readingList.map (fun e => e.googleId)).Nodup →
        (db₁.readingList.map (fun e => e.googleId)).Nodup) :=
  ⟨⟨_, rfl⟩, by simp [dbEmpty],
   addToReadingList_twice_duplicate apiW dbEmpty "X1" none none (some "high") none
     ⟨_, rfl⟩ (by simp [dbEmpty])⟩

/-- Counting invariant of the `authors.forEach` loop: if the
accumulator's counts agree with the occurrences in the already-processed
prefix (and absent keys have zero occurrences), the property persists
through the remaining folds. -/
theorem foldl_bumpAuthor_count :
    ∀ (l done : List String) (acc : List (String × Nat)),
      (∀ p ∈ acc, p.2 = done.count p.1) →
      (∀ a : String, (∀ p ∈ acc, p.1 ≠ a) → done.count a = 0) →
      ∀ p ∈ l.foldl bumpAuthor acc, p.2 = (done ++ l).count p.1
  | [], done, acc => by
    intro h1 _ p hp
    simpa using h1 p hp
  | a :: l, done, acc => by
    intro h1 h2 p hp
    rw [List.foldl_cons] at hp
    have hcount : ∀ x : String, (done ++ [a]).count x = done.count x + if a = x then 1 else 0 := by
      intro x
      simp [List.count_append, List.count_singleton']
    have key := foldl_bumpAuthor_count l (done ++ [a]) (bumpAuthor acc a) ?_ ?_ p hp
    · rwa [List.append_assoc, List.singleton_append] at key
    · intro q hq
      unfold bumpAuthor at hq
      by_cases hcase : acc.any (fun r => r.1 == a)
      · rw [if_pos hcase] at hq
        obtain ⟨r, hr, hfr⟩ := List.mem_map.1 hq
        by_cases hra : r.1 = a
        · rw [if_pos (by simpa using hra)] at hfr
          rw [← hfr, hcount]
          simp [h1 r hr, hra]
        · rw [if_neg (by simpa using hra)] at hfr
          rw [← hfr, hcount]
          rw [if_neg (fun h => hra h.symm), Nat.add_zero]
          exact h1 r hr
      · rw [if_neg hcase] at hq
        rcases List.mem_append.1 hq with hq | hq
        · have hqa : q.1 ≠ a := fun h =>
            hcase (List.any_eq_true.2 ⟨q, hq, beq_iff_eq.mpr h⟩)
          rw [hcount]
          rw [if_neg (fun h => hqa h.symm), Nat.add_zero]
          exact h1 q hq
        · rw [List.mem_singleton.1 hq, hcount]
          have hzero : done.count a = 0 := by
            refine h2 a ?_
            intro r hr h
            exact hcase (List.any_eq_true.2 ⟨r, hr, beq_iff_eq.mpr h⟩)
          simp [hzero]
    · intro x hx
      unfold bumpAuthor at hx
      by_cases hcase : acc.any (fun r => r.1 == a)
      · rw [if_pos hcase] at hx
        have hxacc : ∀ r ∈ acc, r.1 ≠ x := by
          intro r hr
          have := hx (if r.1 == a then (r.1, r.2 + 1) else r) (List.mem_map.2 ⟨r, hr, rfl⟩)
          by_cases hra : r.1 == a
          · simpa [hra] using this
          · simpa [hra] using this
        have hax : a ≠ x := by
          obtain ⟨r, hr, hra⟩ := List.any_eq_true.1 hcase
          have := hxacc r hr
          rw [beq_iff_eq] at hra
          rw [← hra]
          exact this
        rw [hcount, h2 x hxacc]
        simp [hax]
      · rw [if_neg hcase] at hx
        have hax : a ≠ x := by
          have := hx (a, 1) (List.mem_append.2 (Or.inr (List.mem_singleton.2 rfl)))
          simpa using this
        have hxacc : ∀ r ∈ acc, r.1 ≠ x := by
          intro r hr
          exact hx r (List.mem_append.2 (Or.inl hr))
        rw [hcount, h2 x hxacc]
        simp [hax]

/-- The author-count association list built by `getReadingStats` records
the exact occurrence count of each listed author. -/
theorem countAuthors_count (l : List String) :
    ∀ p ∈ l.foldl bumpAuthor [], p.2 = l.count p.1 := by
  have h := foldl_bumpAuthor_count l [] [] (by simp) (by simp)
  simpa using h

/-- `toFixed1` always yields a value with one decimal place. -/
theorem toFixed1_int (q : ℚ) : ∃ z : ℤ, toFixed1 q = (z : ℚ) / 10 :=
  ⟨round (q * 10), rfl⟩

/-- C8: `getReadingStats` returns an `averageRating` with one decimal
place that is `0` when no read book carries a rating, and `topAuthors`
holds at most three entries, ordered by descending occurrence count,
each carrying the true occurrence count of its author. -/
theorem getReadingStats_shape (db : DB) (period : String) :
    ((db.readBooks.filter (fun b => jsTruthyNat b.rating)).length = 0 →
      (getReadingStats db period).averageRating = 0) ∧
    (∃ z : ℤ, (getReadingStats db period).averageRating = (z : ℚ) / 10) ∧
    (getReadingStats db period).topAuthors.length ≤ 3 ∧
    (getReadingStats db period).topAuthors.Pairwise (fun u v => v.2 ≤ u.2) ∧
    (∀ p ∈ (getReadingStats db period).topAuthors,
      p.2 = ((db.readBooks.map (fun b => b.authors)).filter (fun a => a != "")).count p.1) := by
  refine ⟨?_, ?_, ?_, ?_, ?_⟩
  · intro h
    simp [getReadingStats, h, toFixed1]
  · simp only [getReadingStats]
    exact toFixed1_int _
  · simp only [getReadingStats]
    exact List.length_take_le _ _
  · simp only [getReadingStats]
    exact (pairwise_sortDescBy (fun p : String × Nat => p.2) _).sublist (List.take_sublist _ _)
  · simp only [getReadingStats]
    intro p hp
    have h1 := List.mem_of_mem_take hp
    have h2 := mem_sortDescBy (fun q : String × Nat => q.2) p _ h1
    exact countAuthors_count _ p h2

/-- C8 witness: the store whose single read book carries no rating
reports an average rating of `0`. -/
theorem getReadingStats_shape_witness :
    (dbNoRatings.readBooks.filter (fun b => jsTruthyNat b.rating)).length = 0 ∧
    (getReadingStats dbNoRatings "all-time").averageRating = 0 :=
  ⟨rfl, (getReadingStats_shape dbNoRatings "all-time").1 rfl⟩

set_option maxRecDepth 8192 in
/-- C6 evaluation: a raw response containing an item with a missing `id`
makes the whole search return the caught-exception shape (the filter
callback's `item.id.includes` throws) instead of excluding only that
item, while the same valid item alone is returned normally from a
request for `maxResults * 2` raw results. -/
theorem searchBooks_missing_id_aborts_search :
    searchFilterPred missingIdItem = .error () ∧
    searchBooks searchApiWithMissingId "asimov" 10 = .failure ∧
    searchBooks searchApiGoodOnly "asimov" 10 =
      .results [⟨"GOODID1", "Real Book", "Ann Author", none, "desc"⟩] :=
  ⟨rfl, by decide, by decide⟩

end Chatbot
